import Mathlib

/-!
# Verification of the scheduling / matching core

Shallow embedding of the booking platform's core services:
* `SessionsService.checkAvailability`, `createSession`, `cancelSession`,
  `startSession`, `completeSession` (src/sessions/sessions.service.ts)
* the slot-overlap predicate of `AvailabilityService.getAvailableSlots`
  (src/availability/availability.service.ts)
* `MatchingService.calculateCompatibility` and `findCompatibleMentors`
  (matching service source)

Timestamps are modelled as integer epoch milliseconds (JS `Date.getTime()`).
JS `Date` accessor reads (`getDay`, `getHours`/`getMinutes`) are modelled as
fields of a `DateTime` record, mirroring the interface the code reads.
Fractional JS arithmetic (refund hours, minute deltas, score fractions) is
modelled over `ℚ`; every value reachable in these code paths is exact in
IEEE double, so rational arithmetic is faithful.  Stores (the Prisma
tables the services query) are lists in insertion order; Prisma
`findFirst`/`findUnique` without `orderBy` is `List.find?`.
Non-behavioural payload fields (notes, topics, avatar data) are elided.
-/

/-- JS `Math.round`: round half toward positive infinity. -/
def jsRound (q : ℚ) : ℤ := ⌊q + 1 / 2⌋

/-- The three-clause overlap disjunction of `checkAvailability`'s Prisma
session query (sessions.service.ts lines 580-599), with
`cs,ce` the candidate interval and `es,ee` the existing session interval:
`(scheduledAt ≤ datetime ∧ scheduledEndAt > datetime) ∨
 (scheduledAt < endTime ∧ scheduledEndAt ≥ endTime) ∨
 (scheduledAt ≥ datetime ∧ scheduledEndAt ≤ endTime)`. -/
def sessionConflictQuery (cs ce es ee : ℤ) : Bool :=
  (decide (es ≤ cs) && decide (cs < ee)) ||
  (decide (es < ce) && decide (ce ≤ ee)) ||
  (decide (cs ≤ es) && decide (ee ≤ ce))

/-- The single half-open intersection predicate used directly by
`getAvailableSlots` (availability.service.ts line 197):
`slotStart < sessionEnd && slotEnd > sessionStart`. -/
def slotOverlaps (cs ce es ee : ℤ) : Bool :=
  decide (cs < ee) && decide (es < ce)

/-- C1: For proper intervals (start < end on both sides) the three-clause
disjunction of `checkAvailability`'s session-conflict query is equivalent to
the single half-open predicate `candidate.start < existing.end &&
candidate.end > existing.start` used by `getAvailableSlots`, and that
predicate is symmetric in the two intervals. -/
theorem sessionConflictQuery_eq_slotOverlaps_and_symm
    (cs ce es ee : ℤ) (hc : cs < ce) (he : es < ee) :
    sessionConflictQuery cs ce es ee = slotOverlaps cs ce es ee ∧
    slotOverlaps cs ce es ee = slotOverlaps es ee cs ce := by
  refine ⟨?_, ?_⟩ <;>
    · rw [Bool.eq_iff_iff]
      simp only [sessionConflictQuery, slotOverlaps, Bool.or_eq_true,
        Bool.and_eq_true, decide_eq_true_eq]
      omega

/-- Witness for C1 at the concrete intervals [0,2) and [1,3). -/
theorem sessionConflictQuery_eq_slotOverlaps_witness :
    sessionConflictQuery 0 2 1 3 = slotOverlaps 0 2 1 3 ∧
    slotOverlaps 0 2 1 3 = slotOverlaps 1 3 0 2 :=
  ⟨(sessionConflictQuery_eq_slotOverlaps_and_symm 0 2 1 3 (by decide)
      (by decide)).1,
   (sessionConflictQuery_eq_slotOverlaps_and_symm 0 2 1 3 (by decide)
      (by decide)).2⟩

/-! ## Data model (Prisma rows read by the services) -/

inductive SessionStatus where
  | SCHEDULED
  | IN_PROGRESS
  | COMPLETED
  | CANCELLED_BY_MENTOR
  | CANCELLED_BY_MENTEE
  | NO_SHOW_MENTOR
  | NO_SHOW_MENTEE
deriving DecidableEq

inductive VerificationStatus where
  | PENDING
  | APPROVED
  | REJECTED
deriving DecidableEq

/-- JS `Date` as read by the services: absolute epoch milliseconds
(`getTime()`), the local day-of-week (`getDay()`), the local minute of day
(`getHours()*60 + getMinutes()`), and the calendar day index (used only to
compare against a window's `specificDate`). -/
structure DateTime where
  epochMs : ℤ
  dayOfWeek : ℕ
  minuteOfDay : ℤ
  dateIndex : ℤ
deriving DecidableEq

structure Session where
  id : ℕ
  mentorProfileId : ℕ
  menteeProfileId : ℕ
  scheduledAt : ℤ
  scheduledEndAt : ℤ
  durationMinutes : ℤ
  status : SessionStatus
  startedAt : Option ℤ := none
  completedAt : Option ℤ := none
  cancelledAt : Option ℤ := none
  cancelledById : Option ℕ := none
  cancellationReason : Option String := none
deriving DecidableEq

/-- A `mentorAvailability` row; `startMinutes`/`endMinutes` are the values
the code extracts via `getHours()*60 + getMinutes()` from the stored
time-of-day `Date`s. -/
structure MentorAvailability where
  id : ℕ
  mentorId : ℕ
  dayOfWeek : ℕ
  startMinutes : ℤ
  endMinutes : ℤ
  isRecurring : Bool
  specificDate : Option ℤ
  isAvailable : Bool
deriving DecidableEq

structure MentorProfile where
  id : ℕ
  userId : ℕ
  verificationStatus : VerificationStatus
  isAcceptingStudents : Bool
  minSessionDuration : ℤ
  maxSessionDuration : ℤ
  totalSessions : ℕ
  completedSessions : ℕ
deriving DecidableEq

structure MenteeProfile where
  id : ℕ
  userId : ℕ
  totalSessions : ℕ
  completedSessions : ℕ
  totalHoursLearned : ℚ
deriving DecidableEq

/-- The persistent state the sessions/availability services read and write,
each table a list in insertion order (`findFirst`/`findUnique` without
`orderBy` is `List.find?`). -/
structure Store where
  mentorProfiles : List MentorProfile
  menteeProfiles : List MenteeProfile
  sessions : List Session
  availabilities : List MentorAvailability
deriving DecidableEq

structure SessionAvailabilityCheck where
  isAvailable : Bool
  message : String
  conflictingSessionId : Option ℕ := none
deriving DecidableEq

/-! ## checkAvailability (sessions.service.ts lines 566-646) -/

/-- The `where` filter of the conflicting-session query: same mentor, not the
excluded session, status SCHEDULED or IN_PROGRESS, and the three-clause
interval disjunction. -/
def conflictsWithCandidate (mentorId : ℕ) (excludeSessionId : Option ℕ)
    (startMs endMs : ℤ) (s : Session) : Bool :=
  decide (s.mentorProfileId = mentorId) &&
  (match excludeSessionId with
   | some ex => decide (s.id ≠ ex)
   | none => true) &&
  (decide (s.status = .SCHEDULED) || decide (s.status = .IN_PROGRESS)) &&
  sessionConflictQuery startMs endMs s.scheduledAt s.scheduledEndAt

/-- The `where` filter of the `mentorAvailability.findFirst` call: mentor,
day-of-week and `isAvailable` only — `isRecurring`/`specificDate` are not
consulted. -/
def windowFilter (mentorId : ℕ) (dayOfWeek : ℕ) (a : MentorAvailability) : Bool :=
  decide (a.mentorId = mentorId) && decide (a.dayOfWeek = dayOfWeek) && a.isAvailable

def checkAvailability (store : Store) (mentorId : ℕ) (datetime : DateTime)
    (durationMinutes : ℤ) (excludeSessionId : Option ℕ) :
    SessionAvailabilityCheck :=
  let endMs := datetime.epochMs + durationMinutes * 60000
  match store.sessions.find?
      (conflictsWithCandidate mentorId excludeSessionId datetime.epochMs endMs) with
  | some s =>
      { isAvailable := false
        message := "Time slot conflicts with an existing session"
        conflictingSessionId := some s.id }
  | none =>
      let timeMinutes := datetime.minuteOfDay
      let endTimeMinutes := timeMinutes + durationMinutes
      match store.availabilities.find? (windowFilter mentorId datetime.dayOfWeek) with
      | none =>
          { isAvailable := false, message := "Mentor is not available on this day" }
      | some a =>
          if timeMinutes < a.startMinutes ∨ a.endMinutes < endTimeMinutes then
            { isAvailable := false
              message := "Time slot is outside mentor\x27s availability window" }
          else
            { isAvailable := true, message := "Slot is available for booking" }

/-- Spec-side definition, transcribing claim C2's words: a window matches the
candidate when it is enabled, lies on the candidate's day-of-week, and is
recurring or has `specificDate` equal to the candidate's date. -/
def specMatchingWindow (mentorId : ℕ) (dt : DateTime) (a : MentorAvailability) : Bool :=
  a.isAvailable && decide (a.mentorId = mentorId) &&
  decide (a.dayOfWeek = dt.dayOfWeek) &&
  (a.isRecurring || decide (a.specificDate = some dt.dateIndex))

/-- Full containment of the candidate minute-of-day interval in a window. -/
def windowContains (a : MentorAvailability) (startMin endMin : ℤ) : Bool :=
  decide (a.startMinutes ≤ startMin) && decide (endMin ≤ a.endMinutes)

/-! ## C2 / C9: conflict reporting and window resolution -/

/-- Candidate instant Monday 2024-01-08 14:00 UTC. -/
def c2Dt : DateTime :=
  { epochMs := 1704722400000, dayOfWeek := 1, minuteOfDay := 840,
    dateIndex := 19730 }

/-- Store with two enabled recurring Monday windows, 09:00-10:00 and
14:00-15:00, and no sessions. -/
def c2Store : Store :=
  { mentorProfiles := [], menteeProfiles := [], sessions := []
    availabilities :=
      [ { id := 1, mentorId := 7, dayOfWeek := 1, startMinutes := 540,
          endMinutes := 600, isRecurring := true, specificDate := none,
          isAvailable := true },
        { id := 2, mentorId := 7, dayOfWeek := 1, startMinutes := 840,
          endMinutes := 900, isRecurring := true, specificDate := none,
          isAvailable := true } ] }

/-- C2 counterexample: the candidate Monday 14:00-15:00 lies fully inside an
enabled recurring window matching its day-of-week (the second one), so the
claim predicts an available result, yet `checkAvailability` reports the slot
outside the availability window: the code consults only the first window
returned for the day and never filters on `isRecurring`/`specificDate`. -/
theorem checkAvailability_second_window_counterexample :
    (∃ a ∈ c2Store.availabilities,
        specMatchingWindow 7 c2Dt a = true ∧
        windowContains a c2Dt.minuteOfDay (c2Dt.minuteOfDay + 60) = true) ∧
    checkAvailability c2Store 7 c2Dt 60 none =
      { isAvailable := false
        message := "Time slot is outside mentor\x27s availability window"
        conflictingSessionId := none } :=
  ⟨by decide, rfl⟩

/-- C2 (amended): when the session-conflict query finds nothing,
`checkAvailability` consults only the first enabled availability window in
store order matching the candidate's day-of-week (`isRecurring` and
`specificDate` are not consulted): if no enabled window lies on that day it
returns the "not available on this day" result; it reports available exactly
when the first such window fully contains the candidate's minute-of-day
interval, and otherwise returns the "outside availability window" result. -/
theorem checkAvailability_window_phase (store : Store) (mentorId : ℕ)
    (dt : DateTime) (dur : ℤ) (ex : Option ℕ)
    (hnc : store.sessions.find?
        (conflictsWithCandidate mentorId ex dt.epochMs
          (dt.epochMs + dur * 60000)) = none) :
    (store.availabilities.find? (windowFilter mentorId dt.dayOfWeek) = none →
      checkAvailability store mentorId dt dur ex =
        { isAvailable := false
          message := "Mentor is not available on this day"
          conflictingSessionId := none }) ∧
    (∀ a, store.availabilities.find? (windowFilter mentorId dt.dayOfWeek) = some a →
      ((checkAvailability store mentorId dt dur ex).isAvailable = true ↔
        windowContains a dt.minuteOfDay (dt.minuteOfDay + dur) = true) ∧
      (windowContains a dt.minuteOfDay (dt.minuteOfDay + dur) = false →
        checkAvailability store mentorId dt dur ex =
          { isAvailable := false
            message := "Time slot is outside mentor\x27s availability window"
            conflictingSessionId := none })) := by
  have hmain : checkAvailability store mentorId dt dur ex =
      (match store.availabilities.find? (windowFilter mentorId dt.dayOfWeek) with
        | none =>
            { isAvailable := false
              message := "Mentor is not available on this day"
              conflictingSessionId := none }
        | some a =>
            if dt.minuteOfDay < a.startMinutes ∨ a.endMinutes < dt.minuteOfDay + dur then
              { isAvailable := false
                message := "Time slot is outside mentor\x27s availability window"
                conflictingSessionId := none }
            else
              { isAvailable := true
                message := "Slot is available for booking"
                conflictingSessionId := none }) := by
    simp only [checkAvailability]
    rw [hnc]
  rw [hmain]
  refine ⟨fun hw => by rw [hw], fun a ha => ?_⟩
  rw [ha]
  simp only [windowContains, Bool.and_eq_true, decide_eq_true_eq,
    Bool.and_eq_false_iff, decide_eq_false_iff_not, not_le]
  constructor
  · split
    · simp only [Bool.false_eq_true, false_iff]
      omega
    · simp only [true_iff]
      omega
  · intro hcont
    split
    · rfl
    · omega

/-- Witness for the amended C2 on the concrete two-window store: the first
window of the day is 09:00-10:00, so availability of the 14:00 candidate is
equivalent to (false) containment in that window. -/
theorem checkAvailability_window_phase_witness :
    (checkAvailability c2Store 7 c2Dt 60 none).isAvailable = true ↔
      windowContains ⟨1, 7, 1, 540, 600, true, none, true⟩ c2Dt.minuteOfDay
        (c2Dt.minuteOfDay + 60) = true :=
  ((checkAvailability_window_phase c2Store 7 c2Dt 60 none rfl).2
    ⟨1, 7, 1, 540, 600, true, none, true⟩ rfl).1

/-- Candidate instant Monday 2024-01-08 14:00 UTC for a 120-minute booking. -/
def c9Dt : DateTime :=
  { epochMs := 1704722400000, dayOfWeek := 1, minuteOfDay := 840,
    dateIndex := 19730 }

/-- A scheduled session Monday 14:00-15:00 (the earliest-starting conflict). -/
def c9s1 : Session :=
  { id := 1, mentorProfileId := 7, menteeProfileId := 3,
    scheduledAt := 1704722400000, scheduledEndAt := 1704726000000,
    durationMinutes := 60, status := .SCHEDULED }

/-- A scheduled session Monday 15:00-16:00, stored BEFORE `c9s1`. -/
def c9s2 : Session :=
  { id := 2, mentorProfileId := 7, menteeProfileId := 3,
    scheduledAt := 1704726000000, scheduledEndAt := 1704729600000,
    durationMinutes := 60, status := .SCHEDULED }

/-- Store whose session table holds the later-starting conflict first. -/
def c9Store : Store :=
  { mentorProfiles := [], menteeProfiles := [], sessions := [c9s2, c9s1],
    availabilities := [] }

/-- C9 counterexample: for the candidate Monday 14:00-16:00, both stored
sessions conflict and `c9s1` has the strictly earliest scheduled start, yet
`checkAvailability` reports session 2 — the first match in store order — so
the reported conflict is not determined by earliest scheduled start. -/
theorem checkAvailability_conflict_order_counterexample :
    conflictsWithCandidate 7 none 1704722400000 1704729600000 c9s1 = true ∧
    conflictsWithCandidate 7 none 1704722400000 1704729600000 c9s2 = true ∧
    c9s1.scheduledAt < c9s2.scheduledAt ∧
    (checkAvailability c9Store 7 c9Dt 120 none).conflictingSessionId = some 2 :=
  ⟨by decide, by decide, by decide, rfl⟩

/-- C9 (amended): when the session-conflict query matches some session,
`checkAvailability` reports the first matching session in store order (which
does satisfy the conflict filter), not necessarily the conflicting session
with the earliest scheduled start. -/
theorem checkAvailability_reports_first_conflict (store : Store) (mentorId : ℕ)
    (dt : DateTime) (dur : ℤ) (ex : Option ℕ) (s : Session)
    (h : store.sessions.find?
        (conflictsWithCandidate mentorId ex dt.epochMs
          (dt.epochMs + dur * 60000)) = some s) :
    checkAvailability store mentorId dt dur ex =
      { isAvailable := false
        message := "Time slot conflicts with an existing session"
        conflictingSessionId := some s.id } ∧
    conflictsWithCandidate mentorId ex dt.epochMs
      (dt.epochMs + dur * 60000) s = true := by
  refine ⟨?_, List.find?_some h⟩
  simp only [checkAvailability]
  rw [h]

/-- Witness for the amended C9 on the concrete two-conflict store. -/
theorem checkAvailability_reports_first_conflict_witness :
    checkAvailability c9Store 7 c9Dt 120 none =
      { isAvailable := false
        message := "Time slot conflicts with an existing session"
        conflictingSessionId := some 2 } ∧
    conflictsWithCandidate 7 none 1704722400000 1704729600000 c9s2 = true :=
  checkAvailability_reports_first_conflict c9Store 7 c9Dt 120 none c9s2 rfl

/-! ## Session lifecycle (createSession / cancelSession / startSession /
completeSession).  Numeric interpolation inside error messages (min/max
duration) is elided; everything else keeps the source's strings. -/

inductive ApiError where
  | notFound (msg : String)
  | forbidden (msg : String)
  | badRequest (msg : String)
  | conflict (msg : String)
deriving DecidableEq

structure CancellationResult where
  success : Bool
  status : SessionStatus
  refundPercentage : ℤ
  message : String
deriving DecidableEq

/-- `isMentor`: look up the session's mentor profile and compare `userId`
(`mentor?.userId === userId`). -/
def isMentorOf (store : Store) (s : Session) (userId : ℕ) : Bool :=
  match store.mentorProfiles.find? (fun m => decide (m.id = s.mentorProfileId)) with
  | some m => decide (m.userId = userId)
  | none => false

/-- `isMentee`: look up the session's mentee profile and compare `userId`. -/
def isMenteeOf (store : Store) (s : Session) (userId : ℕ) : Bool :=
  match store.menteeProfiles.find? (fun m => decide (m.id = s.menteeProfileId)) with
  | some m => decide (m.userId = userId)
  | none => false

/-- `prisma.session.update({where: {id}, data})`. -/
def updateStoredSession (store : Store) (id : ℕ) (f : Session → Session) : Store :=
  { store with sessions := store.sessions.map (fun s => if s.id = id then f s else s) }

/-- cancelSession (sessions.service.ts lines 377-441). -/
def cancelSession (store : Store) (id userId : ℕ) (reason : String) (nowMs : ℤ) :
    Except ApiError CancellationResult × Store :=
  match store.sessions.find? (fun t => decide (t.id = id)) with
  | none => (.error (.notFound "Session not found"), store)
  | some session =>
    let isMentor := isMentorOf store session userId
    let isMentee := isMenteeOf store session userId
    if !isMentor && !isMentee then
      (.error (.forbidden "You are not a participant in this session"), store)
    else if session.status ≠ .SCHEDULED then
      (.error (.forbidden "Can only cancel scheduled sessions"), store)
    else
      let hoursUntilSession : ℚ :=
        ((session.scheduledAt - nowMs : ℤ) : ℚ) / (1000 * 60 * 60)
      let rm : ℤ × String :=
        if 24 ≤ hoursUntilSession then
          (100, "Full refund issued (cancelled > 24h before session)")
        else if 2 ≤ hoursUntilSession then
          (50, "Partial refund (50%) issued (cancelled < 24h before session)")
        else
          (0, "No refund (cancelled < 2h before session)")
      let status : SessionStatus :=
        if isMentor then .CANCELLED_BY_MENTOR else .CANCELLED_BY_MENTEE
      let store' := updateStoredSession store id (fun s =>
        { s with status := status, cancelledAt := some nowMs,
                 cancelledById := some userId, cancellationReason := some reason })
      (.ok { success := true, status := status, refundPercentage := rm.1,
             message := rm.2 }, store')

/-- startSession (sessions.service.ts lines 446-481). -/
def startSession (store : Store) (id mentorUserId : ℕ) (nowMs : ℤ) :
    Except ApiError Session × Store :=
  match store.sessions.find? (fun t => decide (t.id = id)) with
  | none => (.error (.notFound "Session not found"), store)
  | some session =>
    if !(isMentorOf store session mentorUserId) then
      (.error (.forbidden "Only the mentor can start the session"), store)
    else if session.status ≠ .SCHEDULED then
      (.error (.forbidden "Session is not in SCHEDULED status"), store)
    else
      let minutesUntilStart : ℚ :=
        ((session.scheduledAt - nowMs : ℤ) : ℚ) / (1000 * 60)
      if 15 < minutesUntilStart then
        (.error (.forbidden
          "Session can only be started within 15 minutes of scheduled time"),
         store)
      else
        (.ok { session with status := .IN_PROGRESS, startedAt := some nowMs },
         updateStoredSession store id (fun s =>
           { s with status := .IN_PROGRESS, startedAt := some nowMs }))

/-- completeSession (sessions.service.ts lines 486-561); the
progress-tracking row for an optional surah is elided along with the other
outcome payload fields, the status/actor guards and the stats increments are
kept. -/
def completeSession (store : Store) (id mentorUserId : ℕ) (nowMs : ℤ) :
    Except ApiError Session × Store :=
  match store.sessions.find? (fun t => decide (t.id = id)) with
  | none => (.error (.notFound "Session not found"), store)
  | some session =>
    if !(isMentorOf store session mentorUserId) then
      (.error (.forbidden "Only the mentor can complete the session"), store)
    else if session.status ≠ .IN_PROGRESS ∧ session.status ≠ .SCHEDULED then
      (.error (.forbidden "Session must be in progress or scheduled to complete"),
       store)
    else
      let store1 := updateStoredSession store id (fun s =>
        { s with status := .COMPLETED, completedAt := some nowMs })
      let hoursLearned : ℚ := (session.durationMinutes : ℚ) / 60
      let store2 :=
        { store1 with
          mentorProfiles := store1.mentorProfiles.map (fun m =>
            if m.id = session.mentorProfileId then
              { m with completedSessions := m.completedSessions + 1 }
            else m)
          menteeProfiles := store1.menteeProfiles.map (fun m =>
            if m.id = session.menteeProfileId then
              { m with completedSessions := m.completedSessions + 1,
                       totalHoursLearned := m.totalHoursLearned + hoursLearned }
            else m) }
      (.ok { session with status := .COMPLETED, completedAt := some nowMs },
       store2)

structure CreateSessionDto where
  mentorProfileId : ℕ
  scheduledAt : DateTime
  durationMinutes : ℤ
deriving DecidableEq

/-- createSession (sessions.service.ts lines 29-145); `newSessionId` stands
for the id the database generates for the inserted row. -/
def createSession (store : Store) (menteeUserId : ℕ) (dto : CreateSessionDto)
    (nowMs : ℤ) (newSessionId : ℕ) : Except ApiError Session × Store :=
  match store.menteeProfiles.find? (fun m => decide (m.userId = menteeUserId)) with
  | none => (.error (.notFound "Mentee profile not found"), store)
  | some menteeProfile =>
  match store.mentorProfiles.find? (fun m => decide (m.id = dto.mentorProfileId)) with
  | none => (.error (.notFound "Mentor not found"), store)
  | some mentor =>
  if mentor.verificationStatus ≠ .APPROVED then
    (.error (.forbidden "Mentor is not approved for sessions"), store)
  else if !mentor.isAcceptingStudents then
    (.error (.forbidden "Mentor is not currently accepting students"), store)
  else if dto.scheduledAt.epochMs ≤ nowMs then
    (.error (.badRequest "Session must be scheduled in the future"), store)
  else if dto.durationMinutes < mentor.minSessionDuration then
    (.error (.badRequest "Duration must be at least the mentor minimum"), store)
  else if mentor.maxSessionDuration < dto.durationMinutes then
    (.error (.badRequest "Duration cannot exceed the mentor maximum"), store)
  else
    let check := checkAvailability store dto.mentorProfileId dto.scheduledAt
      dto.durationMinutes none
    if !check.isAvailable then
      (.error (.conflict check.message), store)
    else
      let session : Session :=
        { id := newSessionId
          mentorProfileId := dto.mentorProfileId
          menteeProfileId := menteeProfile.id
          scheduledAt := dto.scheduledAt.epochMs
          scheduledEndAt := dto.scheduledAt.epochMs + dto.durationMinutes * 60000
          durationMinutes := dto.durationMinutes
          status := .SCHEDULED }
      let store1 := { store with sessions := store.sessions ++ [session] }
      let store2 :=
        { store1 with
          mentorProfiles := store1.mentorProfiles.map (fun m =>
            if m.id = mentor.id then
              { m with totalSessions := m.totalSessions + 1 }
            else m)
          menteeProfiles := store1.menteeProfiles.map (fun m =>
            if m.id = menteeProfile.id then
              { m with totalSessions := m.totalSessions + 1 }
            else m) }
      (.ok session, store2)

/-- Terminal session statuses: COMPLETED, both cancellations, both no-shows. -/
def isTerminal : SessionStatus → Bool
  | .COMPLETED => true
  | .CANCELLED_BY_MENTOR => true
  | .CANCELLED_BY_MENTEE => true
  | .NO_SHOW_MENTOR => true
  | .NO_SHOW_MENTEE => true
  | .SCHEDULED => false
  | .IN_PROGRESS => false

/-! ## C6: a failed createSession leaves the store untouched -/

/-- C6: whenever createSession returns an error (missing profile, unapproved
or non-accepting mentor, past start, out-of-bounds duration, or availability
conflict), no session row is persisted and neither participant's counter is
incremented: the resulting store is exactly the input store. -/
theorem createSession_error_leaves_store_unchanged (store : Store)
    (menteeUserId : ℕ) (dto : CreateSessionDto) (nowMs : ℤ) (newId : ℕ)
    (e : ApiError)
    (h : (createSession store menteeUserId dto nowMs newId).1 = .error e) :
    (createSession store menteeUserId dto nowMs newId).2 = store := by
  revert h
  simp only [createSession]
  repeat' split
  all_goals intro h
  all_goals first | rfl | simp at h

/-- Witness for C6: on an empty store the call fails with NotFound and the
store is returned unchanged. -/
theorem createSession_error_leaves_store_unchanged_witness :
    (createSession ⟨[], [], [], []⟩ 1
        ⟨7, ⟨1704722400000, 1, 840, 19730⟩, 60⟩ 0 99).2 = ⟨[], [], [], []⟩ :=
  createSession_error_leaves_store_unchanged ⟨[], [], [], []⟩ 1
    ⟨7, ⟨1704722400000, 1, 840, 19730⟩, 60⟩ 0 99
    (.notFound "Mentee profile not found") rfl

/-! ## C5: terminal states are final -/

/-- C5: for a session already in a terminal status, both terminal-producing
transitions (cancelSession and completeSession), invoked by any actor, are
rejected with an error and leave the store unchanged. -/
theorem terminal_session_transitions_rejected (store : Store) (id userId : ℕ)
    (reason : String) (nowMs : ℤ) (s : Session)
    (hfind : store.sessions.find? (fun t => decide (t.id = id)) = some s)
    (hterm : isTerminal s.status = true) :
    (∃ e, (cancelSession store id userId reason nowMs).1 = .error e) ∧
    (cancelSession store id userId reason nowMs).2 = store ∧
    (∃ e, (completeSession store id userId nowMs).1 = .error e) ∧
    (completeSession store id userId nowMs).2 = store := by
  have hsched : s.status ≠ .SCHEDULED := by
    intro hs
    rw [hs] at hterm
    simp [isTerminal] at hterm
  have hprog : s.status ≠ .IN_PROGRESS := by
    intro hs
    rw [hs] at hterm
    simp [isTerminal] at hterm
  have hcancel : ∃ msg, cancelSession store id userId reason nowMs =
      (.error (.forbidden msg), store) := by
    rcases Bool.eq_false_or_eq_true
        (!isMentorOf store s userId && !isMenteeOf store s userId) with hp | hp
    · exact ⟨_, by
        simp only [cancelSession, hfind]
        rw [if_pos hp]⟩
    · exact ⟨_, by
        simp only [cancelSession, hfind]
        rw [if_neg (by simp [hp]), if_pos hsched]⟩
  have hcomplete : ∃ msg, completeSession store id userId nowMs =
      (.error (.forbidden msg), store) := by
    rcases Bool.eq_false_or_eq_true (!isMentorOf store s userId) with hp | hp
    · exact ⟨_, by
        simp only [completeSession, hfind]
        rw [if_pos hp]⟩
    · exact ⟨_, by
        simp only [completeSession, hfind]
        rw [if_neg (by simp [hp]), if_pos ⟨hprog, hsched⟩]⟩
  obtain ⟨m1, hc1⟩ := hcancel
  obtain ⟨m2, hc2⟩ := hcomplete
  rw [hc1, hc2]
  exact ⟨⟨_, rfl⟩, rfl, ⟨_, rfl⟩, rfl⟩

/-- Witness for C5: a COMPLETED session with its mentor as actor is rejected
by both transitions and the store is unchanged. -/
theorem terminal_session_transitions_rejected_witness :
    (∃ e, (cancelSession
        ⟨[⟨7, 70, .APPROVED, true, 30, 120, 1, 1⟩], [⟨3, 30, 1, 1, 1⟩],
         [⟨1, 7, 3, 0, 3600000, 60, .COMPLETED, none, none, none, none, none⟩], []⟩
        1 70 "again" 0).1 = .error e) ∧
    (cancelSession
        ⟨[⟨7, 70, .APPROVED, true, 30, 120, 1, 1⟩], [⟨3, 30, 1, 1, 1⟩],
         [⟨1, 7, 3, 0, 3600000, 60, .COMPLETED, none, none, none, none, none⟩], []⟩
        1 70 "again" 0).2 =
      ⟨[⟨7, 70, .APPROVED, true, 30, 120, 1, 1⟩], [⟨3, 30, 1, 1, 1⟩],
       [⟨1, 7, 3, 0, 3600000, 60, .COMPLETED, none, none, none, none, none⟩], []⟩ ∧
    (∃ e, (completeSession
        ⟨[⟨7, 70, .APPROVED, true, 30, 120, 1, 1⟩], [⟨3, 30, 1, 1, 1⟩],
         [⟨1, 7, 3, 0, 3600000, 60, .COMPLETED, none, none, none, none, none⟩], []⟩
        1 70 0).1 = .error e) ∧
    (completeSession
        ⟨[⟨7, 70, .APPROVED, true, 30, 120, 1, 1⟩], [⟨3, 30, 1, 1, 1⟩],
         [⟨1, 7, 3, 0, 3600000, 60, .COMPLETED, none, none, none, none, none⟩], []⟩
        1 70 0).2 =
      ⟨[⟨7, 70, .APPROVED, true, 30, 120, 1, 1⟩], [⟨3, 30, 1, 1, 1⟩],
       [⟨1, 7, 3, 0, 3600000, 60, .COMPLETED, none, none, none, none, none⟩], []⟩ :=
  terminal_session_transitions_rejected _ 1 70 "again" 0
    ⟨1, 7, 3, 0, 3600000, 60, .COMPLETED, none, none, none, none, none⟩ rfl rfl

/-! ## C3: refund tiers -/

/-- C3: cancelling a SCHEDULED session as a participant succeeds, and with
`hoursUntilStart = (scheduledAt − now) / 3600000 ms`, the refund percentage
is 100 when hoursUntilStart ≥ 24, 50 when 2 ≤ hoursUntilStart < 24, and 0
when hoursUntilStart < 2 — boundaries inclusive of the higher tier. -/
theorem cancelSession_refund_tiers (store : Store) (id userId : ℕ)
    (reason : String) (nowMs : ℤ) (s : Session)
    (hfind : store.sessions.find? (fun t => decide (t.id = id)) = some s)
    (hpart : isMentorOf store s userId = true ∨ isMenteeOf store s userId = true)
    (hsched : s.status = .SCHEDULED) :
    ∃ r, (cancelSession store id userId reason nowMs).1 = .ok r ∧
      (24 ≤ ((s.scheduledAt - nowMs : ℤ) : ℚ) / (1000 * 60 * 60) →
        r.refundPercentage = 100) ∧
      (2 ≤ ((s.scheduledAt - nowMs : ℤ) : ℚ) / (1000 * 60 * 60) →
        ((s.scheduledAt - nowMs : ℤ) : ℚ) / (1000 * 60 * 60) < 24 →
        r.refundPercentage = 50) ∧
      (((s.scheduledAt - nowMs : ℤ) : ℚ) / (1000 * 60 * 60) < 2 →
        r.refundPercentage = 0) := by
  have hp : ¬((!isMentorOf store s userId && !isMenteeOf store s userId) = true) := by
    rcases hpart with h | h <;> simp [h]
  have hs : ¬(s.status ≠ SessionStatus.SCHEDULED) := by
    simp [hsched]
  simp only [cancelSession, hfind]
  rw [if_neg hp, if_neg hs]
  refine ⟨_, rfl, ?_, ?_, ?_⟩
  · intro h24
    simp only [if_pos h24]
  · intro h2 h24
    rw [if_neg (not_le.mpr h24), if_pos h2]
  · intro h2
    rw [if_neg (not_le.mpr (h2.trans (by norm_num))),
      if_neg (not_le.mpr h2)]

/-- Witness for C3: one mentee-cancelled session exactly 24h out (100%
refund) and one exactly 2h out (50%), plus a 0% instance 1.999h out
(7196400000 ms / 3600000 = 1.999h). -/
theorem cancelSession_refund_tiers_witness :
    (∃ r, (cancelSession
        ⟨[⟨7, 70, .APPROVED, true, 30, 120, 1, 1⟩], [⟨3, 30, 1, 1, 1⟩],
         [⟨1, 7, 3, 86400000, 90000000, 60, .SCHEDULED, none, none, none, none, none⟩],
         []⟩ 1 30 "w" 0).1 = .ok r ∧ r.refundPercentage = 100) ∧
    (∃ r, (cancelSession
        ⟨[⟨7, 70, .APPROVED, true, 30, 120, 1, 1⟩], [⟨3, 30, 1, 1, 1⟩],
         [⟨1, 7, 3, 7200000, 10800000, 60, .SCHEDULED, none, none, none, none, none⟩],
         []⟩ 1 30 "w" 0).1 = .ok r ∧ r.refundPercentage = 50) ∧
    (∃ r, (cancelSession
        ⟨[⟨7, 70, .APPROVED, true, 30, 120, 1, 1⟩], [⟨3, 30, 1, 1, 1⟩],
         [⟨1, 7, 3, 7196400, 10796400, 60, .SCHEDULED, none, none, none, none, none⟩],
         []⟩ 1 30 "w" 0).1 = .ok r ∧ r.refundPercentage = 0) := by
  refine ⟨?_, ?_, ?_⟩
  · obtain ⟨r, hok, h100, _, _⟩ := cancelSession_refund_tiers
      ⟨[⟨7, 70, .APPROVED, true, 30, 120, 1, 1⟩], [⟨3, 30, 1, 1, 1⟩],
       [⟨1, 7, 3, 86400000, 90000000, 60, .SCHEDULED, none, none, none, none, none⟩],
       []⟩ 1 30 "w" 0
      ⟨1, 7, 3, 86400000, 90000000, 60, .SCHEDULED, none, none, none, none, none⟩
      rfl (Or.inr rfl) rfl
    exact ⟨r, hok, h100 (by norm_num)⟩
  · obtain ⟨r, hok, _, h50, _⟩ := cancelSession_refund_tiers
      ⟨[⟨7, 70, .APPROVED, true, 30, 120, 1, 1⟩], [⟨3, 30, 1, 1, 1⟩],
       [⟨1, 7, 3, 7200000, 10800000, 60, .SCHEDULED, none, none, none, none, none⟩],
       []⟩ 1 30 "w" 0
      ⟨1, 7, 3, 7200000, 10800000, 60, .SCHEDULED, none, none, none, none, none⟩
      rfl (Or.inr rfl) rfl
    exact ⟨r, hok, h50 (by norm_num) (by norm_num)⟩
  · obtain ⟨r, hok, _, _, h0⟩ := cancelSession_refund_tiers
      ⟨[⟨7, 70, .APPROVED, true, 30, 120, 1, 1⟩], [⟨3, 30, 1, 1, 1⟩],
       [⟨1, 7, 3, 7196400, 10796400, 60, .SCHEDULED, none, none, none, none, none⟩],
       []⟩ 1 30 "w" 0
      ⟨1, 7, 3, 7196400, 10796400, 60, .SCHEDULED, none, none, none, none, none⟩
      rfl (Or.inr rfl) rfl
    exact ⟨r, hok, h0 (by norm_num)⟩

/-! ## C4 / C10: startSession guards -/

/-- C4: startSession succeeds — yielding the session in IN_PROGRESS with
startedAt set — if and only if the actor is the session's mentor, the status
is SCHEDULED, and now ≥ scheduledStart − 15 minutes; each violated guard
yields the Forbidden error naming that condition. -/
theorem startSession_guards (store : Store) (id userId : ℕ) (nowMs : ℤ)
    (s : Session)
    (hfind : store.sessions.find? (fun t => decide (t.id = id)) = some s) :
    ((∃ s', (startSession store id userId nowMs).1 = .ok s' ∧
        s'.status = .IN_PROGRESS ∧ s'.startedAt = some nowMs) ↔
      (isMentorOf store s userId = true ∧ s.status = .SCHEDULED ∧
        s.scheduledAt - 15 * 60000 ≤ nowMs)) ∧
    (isMentorOf store s userId = false →
      (startSession store id userId nowMs).1 =
        .error (.forbidden "Only the mentor can start the session")) ∧
    (isMentorOf store s userId = true → s.status ≠ .SCHEDULED →
      (startSession store id userId nowMs).1 =
        .error (.forbidden "Session is not in SCHEDULED status")) ∧
    (isMentorOf store s userId = true → s.status = .SCHEDULED →
      nowMs < s.scheduledAt - 15 * 60000 →
      (startSession store id userId nowMs).1 =
        .error (.forbidden
          "Session can only be started within 15 minutes of scheduled time")) := by
  have hq : ((15 : ℚ) < ((s.scheduledAt - nowMs : ℤ) : ℚ) / (1000 * 60)) ↔
      nowMs < s.scheduledAt - 15 * 60000 := by
    rw [lt_div_iff₀ (by norm_num : (0 : ℚ) < 1000 * 60)]
    rw [show ((15 : ℚ) * (1000 * 60)) = ((900000 : ℤ) : ℚ) by norm_num]
    rw [Int.cast_lt]
    omega
  rcases Bool.eq_false_or_eq_true (isMentorOf store s userId) with hm | hm
  case inr =>
    have hrun : (startSession store id userId nowMs).1 =
        .error (.forbidden "Only the mentor can start the session") := by
      simp only [startSession, hfind]
      rw [if_pos (by simp [hm])]
    refine ⟨by simp [hrun, hm], fun _ => hrun,
      fun h1 _ => absurd h1 (by simp [hm]),
      fun h1 _ _ => absurd h1 (by simp [hm])⟩
  case inl =>
    by_cases hs : s.status = SessionStatus.SCHEDULED
    · by_cases ht : (15 : ℚ) < ((s.scheduledAt - nowMs : ℤ) : ℚ) / (1000 * 60)
      · have hrun : (startSession store id userId nowMs).1 =
            .error (.forbidden
              "Session can only be started within 15 minutes of scheduled time") := by
          simp only [startSession, hfind]
          rw [if_neg (by simp [hm]), if_neg (by simp [hs]), if_pos ht]
        have hlt : nowMs < s.scheduledAt - 15 * 60000 := hq.mp ht
        refine ⟨?_, ?_, ?_, ?_⟩
        · simp only [hrun, hm, hs]
          constructor
          · rintro ⟨s', hbad, -⟩
            exact absurd hbad (by simp)
          · rintro ⟨-, -, hle⟩
            omega
        · intro hf
          exact absurd hm (by simp [hf])
        · intro _ hns
          exact absurd hs hns
        · intro _ _ _
          exact hrun
      · have hrun : (startSession store id userId nowMs).1 =
            .ok { s with status := .IN_PROGRESS, startedAt := some nowMs } := by
          simp only [startSession, hfind]
          rw [if_neg (by simp [hm]), if_neg (by simp [hs]), if_neg ht]
        have hle : s.scheduledAt - 15 * 60000 ≤ nowMs := by
          have h2 := (not_congr hq).mp ht
          omega
        refine ⟨?_, ?_, ?_, ?_⟩
        · exact ⟨fun _ => ⟨hm, hs, hle⟩, fun _ => ⟨_, hrun, rfl, rfl⟩⟩
        · intro hf
          exact absurd hm (by simp [hf])
        · intro _ hns
          exact absurd hs hns
        · intro _ _ hlt
          exact absurd hle (by omega)
    · have hrun : (startSession store id userId nowMs).1 =
          .error (.forbidden "Session is not in SCHEDULED status") := by
        simp only [startSession, hfind]
        rw [if_neg (by simp [hm]), if_pos hs]
      refine ⟨?_, ?_, ?_, ?_⟩
      · constructor
        · rintro ⟨s', hbad, -⟩
          rw [hrun] at hbad
          exact absurd hbad (by simp)
        · rintro ⟨-, h2, -⟩
          exact absurd h2 hs
      · intro hf
        exact absurd hm (by simp [hf])
      · intro _ _
        exact hrun
      · intro _ h2 _
        exact absurd h2 hs

/-- Witness for C4: the claim's scenario — a session 10 minutes out can be
started by its mentor (`now = 0`, `scheduledAt = 600000`). -/
theorem startSession_guards_witness :
    ∃ s', (startSession
        ⟨[⟨7, 70, .APPROVED, true, 30, 120, 1, 1⟩], [⟨3, 30, 1, 1, 1⟩],
         [⟨1, 7, 3, 600000, 4200000, 60, .SCHEDULED, none, none, none, none, none⟩],
         []⟩ 1 70 0).1 = .ok s' ∧
      s'.status = .IN_PROGRESS ∧ s'.startedAt = some 0 :=
  ((startSession_guards
      ⟨[⟨7, 70, .APPROVED, true, 30, 120, 1, 1⟩], [⟨3, 30, 1, 1, 1⟩],
       [⟨1, 7, 3, 600000, 4200000, 60, .SCHEDULED, none, none, none, none, none⟩],
       []⟩ 1 70 0
      ⟨1, 7, 3, 600000, 4200000, 60, .SCHEDULED, none, none, none, none, none⟩
      rfl).1).mpr ⟨rfl, rfl, by decide⟩

/-- C10 (implicit): the 15-minute rule bounds only how early a session may be
started — for a SCHEDULED session, the mentor can start it at any time from
scheduledStart − 15 minutes onward; no upper bound (such as the scheduled
end) is checked. -/
theorem startSession_no_upper_time_bound (store : Store) (id userId : ℕ)
    (nowMs : ℤ) (s : Session)
    (hfind : store.sessions.find? (fun t => decide (t.id = id)) = some s)
    (hm : isMentorOf store s userId = true)
    (hs : s.status = .SCHEDULED)
    (hlate : s.scheduledAt - 15 * 60000 ≤ nowMs) :
    (startSession store id userId nowMs).1 =
      .ok { s with status := .IN_PROGRESS, startedAt := some nowMs } := by
  have hq : ¬((15 : ℚ) < ((s.scheduledAt - nowMs : ℤ) : ℚ) / (1000 * 60)) := by
    rw [not_lt, div_le_iff₀ (by norm_num : (0 : ℚ) < 1000 * 60)]
    rw [show ((15 : ℚ) * (1000 * 60)) = ((900000 : ℤ) : ℚ) by norm_num]
    rw [Int.cast_le]
    omega
  simp only [startSession, hfind]
  rw [if_neg (by simp [hm]), if_neg (by simp [hs]), if_neg hq]

/-- Witness for C10: a session scheduled at epoch 0 whose scheduled end
(3600000 ms) passed long before `now = 10^12` is still started. -/
theorem startSession_no_upper_time_bound_witness :
    (3600000 : ℤ) < 1000000000000 ∧
    (startSession
        ⟨[⟨7, 70, .APPROVED, true, 30, 120, 1, 1⟩], [⟨3, 30, 1, 1, 1⟩],
         [⟨1, 7, 3, 0, 3600000, 60, .SCHEDULED, none, none, none, none, none⟩],
         []⟩ 1 70 1000000000000).1 =
      .ok ⟨1, 7, 3, 0, 3600000, 60, .IN_PROGRESS, some 1000000000000,
           none, none, none, none⟩ :=
  ⟨by decide,
   startSession_no_upper_time_bound
     ⟨[⟨7, 70, .APPROVED, true, 30, 120, 1, 1⟩], [⟨3, 30, 1, 1, 1⟩],
      [⟨1, 7, 3, 0, 3600000, 60, .SCHEDULED, none, none, none, none, none⟩],
      []⟩ 1 70 1000000000000
     ⟨1, 7, 3, 0, 3600000, 60, .SCHEDULED, none, none, none, none, none⟩
     rfl rfl rfl (by decide)⟩

/-! ## Matching service: compatibility scoring (seven weighted factors,
weights 100/80/80/50/40/30/20, total 400).  `MentorMatchProfile` /
`MenteeMatchProfile` are the mentor/mentee rows as read by the matching
service (joined with the user's country/timezone). -/

inductive LearnerCategory where
  | CHILD
  | TEENAGER
  | ADULT
deriving DecidableEq

inductive LearningLevel where
  | NO_ARABIC
  | BEGINNER
  | INTERMEDIATE
  | ADVANCED
deriving DecidableEq

/-- The scorer branches only on whether the context is NEW_MUSLIM; every
other context value behaves like STANDARD. -/
inductive LearningContext where
  | NEW_MUSLIM
  | STANDARD
deriving DecidableEq

structure MentorMatchProfile where
  teachesChildren : Bool
  teachesTeenagers : Bool
  teachesAdults : Bool
  acceptedLevels : List LearningLevel
  languages : List String
  experiencedWithNewMuslims : Bool
  beginnerFriendly : Bool
  freeSessionsOnly : Bool
  hourlyRate : Option ℚ
  countryCode : Option String
  timezone : Option String
  averageRating : ℚ
  totalReviews : ℕ
deriving DecidableEq

structure MenteeMatchProfile where
  learnerCategory : LearnerCategory
  currentLevel : LearningLevel
  preferredLanguages : List String
  learningContext : LearningContext
  countryCode : Option String
  timezone : Option String
deriving DecidableEq

structure FindMentorsPrefs where
  preferredLanguages : Option (List String) := none
  budgetPerSession : Option ℚ := none
  timezone : Option String := none
  countryCode : Option String := none
  limit : Option ℕ := none
deriving DecidableEq

/-- JS `Math.round` kept in ℚ (the reason DTO's score field is a JS number). -/
def jsRoundQ (q : ℚ) : ℚ := (⌊q + 1 / 2⌋ : ℤ)

/-- JS truthiness of an optional string (`null`/empty are falsy). -/
def jsTruthyStr : Option String → Bool
  | none => false
  | some s => decide (s ≠ "")

/-- `prefs.x || profile.x`: the preference wins when truthy. -/
def prefsOrProfile (pref prof : Option String) : Option String :=
  match pref with
  | some p => if p = "" then prof else some p
  | none => prof

/-- Factor 1, LEARNER_CATEGORY (weight 100): binary on the mentor's
teaches-flag for the mentee's category. -/
def scoreLearnerCategory (mentor : MentorMatchProfile)
    (mentee : MenteeMatchProfile) : ℚ :=
  let isMatch :=
    match mentee.learnerCategory with
    | .CHILD => mentor.teachesChildren
    | .TEENAGER => mentor.teachesTeenagers
    | .ADULT => mentor.teachesAdults
  if isMatch then 100 else 0

/-- Factor 2, ACCEPTED_LEVEL (weight 80): binary on membership. -/
def scoreAcceptedLevel (mentor : MentorMatchProfile)
    (mentee : MenteeMatchProfile) : ℚ :=
  if mentee.currentLevel ∈ mentor.acceptedLevels then 80 else 0

/-- `preferences.preferredLanguages?.length ? preferences.preferredLanguages
: mentee.preferredLanguages`. -/
def menteeLanguagesUsed (mentee : MenteeMatchProfile)
    (prefs : FindMentorsPrefs) : List String :=
  match prefs.preferredLanguages with
  | some ls => if ls.length ≠ 0 then ls else mentee.preferredLanguages
  | none => mentee.preferredLanguages

/-- Factor 3, LANGUAGES (weight 80): `round(80 × |common| / |requested|)`,
0 when the requested list is empty. -/
def scoreLanguages (mentor : MentorMatchProfile) (mentee : MenteeMatchProfile)
    (prefs : FindMentorsPrefs) : ℚ :=
  let menteeLangs := menteeLanguagesUsed mentee prefs
  let common := menteeLangs.filter (fun l => mentor.languages.contains l)
  let matchFraction : ℚ :=
    if 0 < menteeLangs.length then
      (common.length : ℚ) / (menteeLangs.length : ℚ)
    else 0
  jsRoundQ (80 * matchFraction)

/-- Factor 4, LEARNING_CONTEXT (weight 50): base 25; 50 for NEW_MUSLIM with
an experienced mentor, 15 for NEW_MUSLIM without; +10 capped at 50 for a
beginner-friendly mentor with a NO_ARABIC mentee. -/
def scoreLearningContext (mentor : MentorMatchProfile)
    (mentee : MenteeMatchProfile) : ℚ :=
  let base : ℚ := 50 * (1 / 2)
  let s1 : ℚ :=
    if mentee.learningContext = .NEW_MUSLIM ∧ mentor.experiencedWithNewMuslims then
      50
    else if mentee.learningContext = .NEW_MUSLIM ∧
        ¬(mentor.experiencedWithNewMuslims = true) then
      50 * (3 / 10)
    else base
  let s2 : ℚ :=
    if mentor.beginnerFriendly ∧ mentee.currentLevel = .NO_ARABIC then
      min (s1 + 10) 50
    else s1
  jsRoundQ s2

/-- Factor 5, BUDGET (weight 40): full for free-only mentors or a rate within
budget, half when no budget is given, else 0 (`hourlyRate` falsy reads 0). -/
def scoreBudget (mentor : MentorMatchProfile) (prefs : FindMentorsPrefs) : ℚ :=
  if mentor.freeSessionsOnly then 40
  else
    match prefs.budgetPerSession with
    | none => 40 * (1 / 2)
    | some budget =>
      let rate : ℚ :=
        match mentor.hourlyRate with
        | some r => r
        | none => 0
      if rate ≤ budget then 40 else 0

/-- Factor 6, TIMEZONE (weight 30): +0.6w same country, then +0.4w same
timezone / +0.2w differing timezones when both are truthy; capped at 30. -/
def scoreTimezone (mentor : MentorMatchProfile) (mentee : MenteeMatchProfile)
    (prefs : FindMentorsPrefs) : ℚ :=
  let menteeCountry := prefsOrProfile prefs.countryCode mentee.countryCode
  let s1 : ℚ := if mentor.countryCode = menteeCountry then 30 * (6 / 10) else 0
  let menteeTimezone := prefsOrProfile prefs.timezone mentee.timezone
  let s2 : ℚ :=
    if jsTruthyStr mentor.timezone ∧ jsTruthyStr menteeTimezone then
      if mentor.timezone = menteeTimezone then s1 + 30 * (4 / 10)
      else s1 + 30 * (2 / 10)
    else s1
  jsRoundQ (min s2 30)

/-- Factor 7, RATING (weight 20): 20 / 16 / 10 by rating bands, 10 for a
mentor with zero reviews, else 4. -/
def scoreRating (mentor : MentorMatchProfile) : ℚ :=
  let rating := mentor.averageRating
  let s : ℚ :=
    if 4.5 ≤ rating then 20
    else if 4.0 ≤ rating then 20 * (8 / 10)
    else if 3.5 ≤ rating then 20 * (5 / 10)
    else if mentor.totalReviews = 0 then 20 * (5 / 10)
    else 20 * (2 / 10)
  jsRoundQ s

/-- Sum of the seven factor scores (`totalScore`). -/
def totalCompatibilityScore (mentor : MentorMatchProfile)
    (mentee : MenteeMatchProfile) (prefs : FindMentorsPrefs) : ℚ :=
  scoreLearnerCategory mentor mentee + scoreAcceptedLevel mentor mentee +
  scoreLanguages mentor mentee prefs + scoreLearningContext mentor mentee +
  scoreBudget mentor prefs + scoreTimezone mentor mentee prefs +
  scoreRating mentor

/-- `finalScore = Math.round((totalScore / 400) * 100)`. -/
def compatibilityScore (mentor : MentorMatchProfile)
    (mentee : MenteeMatchProfile) (prefs : FindMentorsPrefs) : ℤ :=
  jsRound (totalCompatibilityScore mentor mentee prefs / 400 * 100)

/-! ## C7: boundedness of factor and final scores -/

theorem jsRoundQ_nonneg {q : ℚ} (h : 0 ≤ q) : 0 ≤ jsRoundQ q := by
  unfold jsRoundQ
  have : (0 : ℤ) ≤ ⌊q + 1 / 2⌋ := Int.floor_nonneg.mpr (by linarith)
  exact_mod_cast this

theorem floor_int_add_half (n : ℤ) : ⌊(n : ℚ) + 1 / 2⌋ = n := by
  rw [add_comm, Int.floor_add_int]
  norm_num

theorem jsRoundQ_le_intCast {q : ℚ} {n : ℤ} (h : q ≤ (n : ℚ)) :
    jsRoundQ q ≤ (n : ℚ) := by
  unfold jsRoundQ
  have h1 : ⌊q + 1 / 2⌋ ≤ ⌊(n : ℚ) + 1 / 2⌋ :=
    Int.floor_le_floor (by linarith)
  rw [floor_int_add_half] at h1
  exact_mod_cast h1

theorem jsRound_nonneg {q : ℚ} (h : 0 ≤ q) : 0 ≤ jsRound q :=
  Int.floor_nonneg.mpr (by linarith)

theorem jsRound_le_int {q : ℚ} {n : ℤ} (h : q ≤ (n : ℚ)) : jsRound q ≤ n := by
  have h1 : ⌊q + 1 / 2⌋ ≤ ⌊(n : ℚ) + 1 / 2⌋ :=
    Int.floor_le_floor (by linarith)
  rw [floor_int_add_half] at h1
  exact h1

theorem scoreLearnerCategory_bounds (mentor : MentorMatchProfile)
    (mentee : MenteeMatchProfile) :
    0 ≤ scoreLearnerCategory mentor mentee ∧
    scoreLearnerCategory mentor mentee ≤ 100 := by
  simp only [scoreLearnerCategory]
  split <;> norm_num

theorem scoreAcceptedLevel_bounds (mentor : MentorMatchProfile)
    (mentee : MenteeMatchProfile) :
    0 ≤ scoreAcceptedLevel mentor mentee ∧
    scoreAcceptedLevel mentor mentee ≤ 80 := by
  simp only [scoreAcceptedLevel]
  split <;> norm_num

theorem scoreLanguages_bounds (mentor : MentorMatchProfile)
    (mentee : MenteeMatchProfile) (prefs : FindMentorsPrefs) :
    0 ≤ scoreLanguages mentor mentee prefs ∧
    scoreLanguages mentor mentee prefs ≤ 80 := by
  simp only [scoreLanguages]
  constructor
  · apply jsRoundQ_nonneg
    split
    · positivity
    · norm_num
  · rw [show (80 : ℚ) = ((80 : ℤ) : ℚ) by norm_num]
    apply jsRoundQ_le_intCast
    push_cast
    split
    · rename_i hL
      have hfrac :
          (((menteeLanguagesUsed mentee prefs).filter
              (fun l => mentor.languages.contains l)).length : ℚ) /
            ((menteeLanguagesUsed mentee prefs).length : ℚ) ≤ 1 := by
        apply div_le_one_of_le₀
        · exact_mod_cast List.length_filter_le _ _
        · positivity
      nlinarith [hfrac]
    · norm_num

theorem scoreLearningContext_bounds (mentor : MentorMatchProfile)
    (mentee : MenteeMatchProfile) :
    0 ≤ scoreLearningContext mentor mentee ∧
    scoreLearningContext mentor mentee ≤ 50 := by
  simp only [scoreLearningContext]
  constructor
  · apply jsRoundQ_nonneg
    split_ifs <;> norm_num
  · rw [show (50 : ℚ) = ((50 : ℤ) : ℚ) by norm_num]
    apply jsRoundQ_le_intCast
    push_cast
    split_ifs <;> norm_num

theorem scoreBudget_bounds (mentor : MentorMatchProfile)
    (prefs : FindMentorsPrefs) :
    0 ≤ scoreBudget mentor prefs ∧ scoreBudget mentor prefs ≤ 40 := by
  simp only [scoreBudget]
  split
  · norm_num
  · split
    · norm_num
    · split <;> norm_num

theorem scoreTimezone_bounds (mentor : MentorMatchProfile)
    (mentee : MenteeMatchProfile) (prefs : FindMentorsPrefs) :
    0 ≤ scoreTimezone mentor mentee prefs ∧
    scoreTimezone mentor mentee prefs ≤ 30 := by
  simp only [scoreTimezone]
  constructor
  · apply jsRoundQ_nonneg
    split_ifs <;> · apply le_min <;> norm_num
  · rw [show (30 : ℚ) = ((30 : ℤ) : ℚ) by norm_num]
    apply jsRoundQ_le_intCast
    push_cast
    exact min_le_right _ _

theorem scoreRating_bounds (mentor : MentorMatchProfile) :
    0 ≤ scoreRating mentor ∧ scoreRating mentor ≤ 20 := by
  simp only [scoreRating]
  constructor
  · apply jsRoundQ_nonneg
    split_ifs <;> norm_num
  · rw [show (20 : ℚ) = ((20 : ℤ) : ℚ) by norm_num]
    apply jsRoundQ_le_intCast
    push_cast
    split_ifs <;> norm_num

/-- C7: each of the seven factor scores lies in [0, weight] for its weight
(100, 80, 80, 50, 40, 30, 20) — so the context factor's +10 bonus and the
locality factor's bonus sum are capped at their weights — and the final
score round(sum/400 × 100) lies in [0, 100]. -/
theorem compatibility_scores_bounded (mentor : MentorMatchProfile)
    (mentee : MenteeMatchProfile) (prefs : FindMentorsPrefs) :
    (0 ≤ scoreLearnerCategory mentor mentee ∧
      scoreLearnerCategory mentor mentee ≤ 100) ∧
    (0 ≤ scoreAcceptedLevel mentor mentee ∧
      scoreAcceptedLevel mentor mentee ≤ 80) ∧
    (0 ≤ scoreLanguages mentor mentee prefs ∧
      scoreLanguages mentor mentee prefs ≤ 80) ∧
    (0 ≤ scoreLearningContext mentor mentee ∧
      scoreLearningContext mentor mentee ≤ 50) ∧
    (0 ≤ scoreBudget mentor prefs ∧ scoreBudget mentor prefs ≤ 40) ∧
    (0 ≤ scoreTimezone mentor mentee prefs ∧
      scoreTimezone mentor mentee prefs ≤ 30) ∧
    (0 ≤ scoreRating mentor ∧ scoreRating mentor ≤ 20) ∧
    (0 ≤ compatibilityScore mentor mentee prefs ∧
      compatibilityScore mentor mentee prefs ≤ 100) := by
  obtain ⟨h1a, h1b⟩ := scoreLearnerCategory_bounds mentor mentee
  obtain ⟨h2a, h2b⟩ := scoreAcceptedLevel_bounds mentor mentee
  obtain ⟨h3a, h3b⟩ := scoreLanguages_bounds mentor mentee prefs
  obtain ⟨h4a, h4b⟩ := scoreLearningContext_bounds mentor mentee
  obtain ⟨h5a, h5b⟩ := scoreBudget_bounds mentor prefs
  obtain ⟨h6a, h6b⟩ := scoreTimezone_bounds mentor mentee prefs
  obtain ⟨h7a, h7b⟩ := scoreRating_bounds mentor
  refine ⟨⟨h1a, h1b⟩, ⟨h2a, h2b⟩, ⟨h3a, h3b⟩, ⟨h4a, h4b⟩, ⟨h5a, h5b⟩,
    ⟨h6a, h6b⟩, ⟨h7a, h7b⟩, ?_, ?_⟩
  · apply jsRound_nonneg
    unfold totalCompatibilityScore
    positivity
  · apply jsRound_le_int
    unfold totalCompatibilityScore
    push_cast
    rw [div_mul_eq_mul_div, div_le_iff₀ (by norm_num : (0 : ℚ) < 400)]
    linarith

/-! ## C8: findCompatibleMentors ranking.
`Array.prototype.sort` with comparator `(a, b) => b.score - a.score` is a
stable descending sort (stable since ES2019); a stable sort with respect to
a total preorder is extensionally unique, so it is modelled by a stable
insertion sort: an element is inserted behind every strictly greater key and
ahead of equal keys that came later in the input. -/

def insertDescBy {α : Type} (key : α → ℤ) (x : α) : List α → List α
  | [] => [x]
  | y :: ys => if key x < key y then y :: insertDescBy key x ys else x :: y :: ys

def sortDescBy {α : Type} (key : α → ℤ) : List α → List α
  | [] => []
  | x :: xs => insertDescBy key x (sortDescBy key xs)

theorem mem_insertDescBy {α : Type} (key : α → ℤ) (x a : α) (l : List α) :
    a ∈ insertDescBy key x l ↔ a = x ∨ a ∈ l := by
  induction l with
  | nil => simp [insertDescBy]
  | cons y ys ih =>
    simp only [insertDescBy]
    split
    · simp only [List.mem_cons, ih]
      tauto
    · simp only [List.mem_cons]

theorem length_insertDescBy {α : Type} (key : α → ℤ) (x : α) (l : List α) :
    (insertDescBy key x l).length = l.length + 1 := by
  induction l with
  | nil => rfl
  | cons y ys ih =>
    simp only [insertDescBy]
    split
    · simp [ih]
    · simp

theorem pairwise_insertDescBy {α : Type} (key : α → ℤ) (x : α) {l : List α}
    (h : l.Pairwise (fun a b => key b ≤ key a)) :
    (insertDescBy key x l).Pairwise (fun a b => key b ≤ key a) := by
  induction l with
  | nil => simp [insertDescBy]
  | cons y ys ih =>
    rw [List.pairwise_cons] at h
    obtain ⟨hy, hys⟩ := h
    simp only [insertDescBy]
    split
    · rename_i hlt
      rw [List.pairwise_cons]
      refine ⟨?_, ih hys⟩
      intro z hz
      rcases (mem_insertDescBy key x z ys).mp hz with rfl | hz'
      · exact le_of_lt hlt
      · exact hy z hz'
    · rename_i hge
      rw [List.pairwise_cons]
      refine ⟨?_, List.Pairwise.cons hy hys⟩
      intro z hz
      rcases List.mem_cons.mp hz with rfl | hz'
      · omega
      · exact le_trans (hy z hz') (by omega)

theorem pairwise_sortDescBy {α : Type} (key : α → ℤ) (l : List α) :
    (sortDescBy key l).Pairwise (fun a b => key b ≤ key a) := by
  induction l with
  | nil => exact List.Pairwise.nil
  | cons x xs ih => exact pairwise_insertDescBy key x ih

theorem mem_sortDescBy {α : Type} (key : α → ℤ) (a : α) (l : List α) :
    a ∈ sortDescBy key l ↔ a ∈ l := by
  induction l with
  | nil => simp [sortDescBy]
  | cons x xs ih =>
    simp only [sortDescBy, mem_insertDescBy, List.mem_cons, ih]

theorem filter_insertDescBy {α : Type} (key : α → ℤ) (x : α) (l : List α)
    (s : ℤ) :
    (insertDescBy key x l).filter (fun a => decide (key a = s)) =
      if key x = s then
        x :: l.filter (fun a => decide (key a = s))
      else
        l.filter (fun a => decide (key a = s)) := by
  induction l with
  | nil =>
    simp only [insertDescBy, List.filter]
    split_ifs with h
    · simp [h]
    · simp [h]
  | cons y ys ih =>
    simp only [insertDescBy]
    split
    · rename_i hlt
      by_cases hx : key x = s
      · have hy : ¬(key y = s) := by omega
        rw [if_pos hx]
        simp only [List.filter_cons, ih, if_pos hx]
        simp [hy]
      · rw [if_neg hx]
        simp only [List.filter_cons, ih, if_neg hx]
    · by_cases hx : key x = s
      · rw [if_pos hx]
        simp only [List.filter_cons]
        simp [hx]
      · rw [if_neg hx]
        simp only [List.filter_cons]
        simp [hx]

theorem filter_sortDescBy {α : Type} (key : α → ℤ) (l : List α) (s : ℤ) :
    (sortDescBy key l).filter (fun a => decide (key a = s)) =
      l.filter (fun a => decide (key a = s)) := by
  induction l with
  | nil => rfl
  | cons x xs ih =>
    simp only [sortDescBy, filter_insertDescBy, ih, List.filter_cons]
    by_cases h : key x = s
    · simp [h]
    · simp [h]

/-- The scored-and-prefiltered list: compatibility computed per eligible
mentor, entries below 20 discarded, input order kept. -/
def rankedPhase (mentors : List MentorMatchProfile)
    (mentee : MenteeMatchProfile) (prefs : FindMentorsPrefs) :
    List (MentorMatchProfile × ℤ) :=
  mentors.filterMap (fun m =>
    let score := compatibilityScore m mentee prefs
    if 20 ≤ score then some (m, score) else none)

/-- findCompatibleMentors: score, keep ≥ 20, sort by score descending
(stable), truncate to the requested limit (default 10). -/
def findCompatibleMentors (mentors : List MentorMatchProfile)
    (mentee : MenteeMatchProfile) (prefs : FindMentorsPrefs) :
    List (MentorMatchProfile × ℤ) :=
  (sortDescBy (fun p => p.2) (rankedPhase mentors mentee prefs)).take
    (prefs.limit.getD 10)

theorem rankedPhase_mem {mentors : List MentorMatchProfile}
    {mentee : MenteeMatchProfile} {prefs : FindMentorsPrefs}
    {p : MentorMatchProfile × ℤ} (h : p ∈ rankedPhase mentors mentee prefs) :
    20 ≤ p.2 ∧ p.2 = compatibilityScore p.1 mentee prefs := by
  simp only [rankedPhase, List.mem_filterMap] at h
  obtain ⟨m, -, hm⟩ := h
  by_cases hs : 20 ≤ compatibilityScore m mentee prefs
  · rw [if_pos hs] at hm
    cases hm
    exact ⟨hs, rfl⟩
  · rw [if_neg hs] at hm
    cases hm

/-- C8: the ranked list is non-increasing by score, keeps ties in stable
(input) order, contains no entry scoring below 20 (and each entry carries its
mentor's compatibility score), and has length at most the requested limit,
defaulting to 10. -/
theorem findCompatibleMentors_ranking (mentors : List MentorMatchProfile)
    (mentee : MenteeMatchProfile) (prefs : FindMentorsPrefs) :
    (findCompatibleMentors mentors mentee prefs).Pairwise
      (fun a b => b.2 ≤ a.2) ∧
    (∀ p ∈ findCompatibleMentors mentors mentee prefs,
      20 ≤ p.2 ∧ p.2 = compatibilityScore p.1 mentee prefs) ∧
    (findCompatibleMentors mentors mentee prefs).length ≤ prefs.limit.getD 10 ∧
    (∀ s : ℤ,
      (sortDescBy (fun p => p.2) (rankedPhase mentors mentee prefs)).filter
          (fun p => decide (p.2 = s)) =
        (rankedPhase mentors mentee prefs).filter (fun p => decide (p.2 = s))) := by
  refine ⟨?_, ?_, ?_, ?_⟩
  · exact (pairwise_sortDescBy (fun p => p.2)
      (rankedPhase mentors mentee prefs)).sublist
      (List.take_sublist _ _)
  · intro p hp
    have hp2 : p ∈ sortDescBy (fun q => q.2) (rankedPhase mentors mentee prefs) :=
      List.take_subset _ _ hp
    exact rankedPhase_mem ((mem_sortDescBy _ p _).mp hp2)
  · exact List.length_take_le _ _
  · intro s
    exact filter_sortDescBy (fun p => p.2) (rankedPhase mentors mentee prefs) s
